import Mathlib

/-!
Verification of the operator/kernel interop layer (`src/operator/kernel.rs`).

The layer wraps a C-style native engine ABI. We shallowly embed the Rust code
as pure Lean functions over an explicit environment that models the native
engine's responses (the engine is an external collaborator of this core, so
its behaviour is taken from the spec's description of the ABI contract).
Machine pointers are modelled as `Nat` with `0` playing the role of the null
pointer; byte strings are `List Nat`; 32-bit float payloads are carried as
opaque bit patterns (the code never performs floating-point arithmetic on
them, it only moves them across the boundary).

Each fallible operation returns an `Outcome`: `ok` for Rust `Ok`, `err` for
Rust `Err` (a typed, recoverable error), and `fatal` for a Rust panic /
failed assertion (an abort, not a recoverable error).  Operations also
return the list of native entry points they invoked (`NCall`), so that
release-call bookkeeping (the ownership claims) can be stated exactly.
-/

namespace OrtKernel

/-- A raw native pointer; `0` is the null pointer. -/
abbrev Ptr := Nat

/-- Result of running a piece of Rust code: `ok`/`err` mirror `Result`,
`fatal` is a panic or failed assertion (abort). -/
inductive Outcome (α : Type) where
  | ok : α → Outcome α
  | err : String → Outcome α
  | fatal : String → Outcome α
deriving DecidableEq, Repr

/-- `Result::is_ok`. -/
def Outcome.isOk {α : Type} : Outcome α → Bool
  | .ok _ => true
  | _ => false

/-- Functorial map on the `ok` case. -/
def Outcome.map {α β : Type} (f : α → β) : Outcome α → Outcome β
  | .ok a => .ok (f a)
  | .err e => .err e
  | .fatal m => .fatal m

/-- The value an operator attribute holds on the native side.  Strings and
arrays are stored as the exact byte/element buffer the engine fills on the
second call of the size-then-fill protocol (so the reported size is the
buffer length).  Float payloads are opaque 32-bit patterns. -/
inductive AttrValue where
  | afloat : Nat → AttrValue
  | aint : Int → AttrValue
  | astr : List Nat → AttrValue
  | afloats : List Nat → AttrValue
  | aints : List Int → AttrValue
  | atensor : Ptr → AttrValue
deriving DecidableEq, Repr

/-- A decoded host-side attribute value, as produced by the
`GetKernelAttribute` implementations.  `hstr` carries the validated UTF-8
byte content of the host string; `htensor` carries the wrapped value pointer
together with its drop-ownership flag (`true` = released on drop). -/
inductive HostVal where
  | hfloat : Nat → HostVal
  | hint : Int → HostVal
  | hstr : List Nat → HostVal
  | hfloats : List Nat → HostVal
  | hints : List Int → HostVal
  | htensor : Ptr → Bool → HostVal
deriving DecidableEq, Repr

/-- The native entry points the wrapper can invoke; arguments record the
handle they target (and, for the string attribute getter, the buffer
argument: `none` is the null size-query buffer, `some n` a buffer of
capacity `n`). -/
inductive NCall where
  | getAttrFloat : Ptr → List Nat → NCall
  | getAttrInt : Ptr → List Nat → NCall
  | getAttrString : Ptr → List Nat → Option Nat → NCall
  | getAttrArrayFloat : Ptr → List Nat → NCall
  | getAttrArrayInt : Ptr → List Nat → NCall
  | getAttrTensor : Ptr → List Nat → NCall
  | getInputCount : Ptr → NCall
  | getInputName : Ptr → Nat → NCall
  | getInputTypeInfo : Ptr → Nat → NCall
  | getOutputCount : Ptr → NCall
  | getOutputName : Ptr → Nat → NCall
  | getOutputTypeInfo : Ptr → Nat → NCall
  | getConstantInput : Ptr → Nat → NCall
  | getNodeName : Ptr → NCall
  | getAllocator : Ptr → Nat → NCall
  | copyKernelInfo : Ptr → NCall
  | releaseKernelInfo : Ptr → NCall
  | releaseValue : Ptr → NCall
deriving DecidableEq, Repr

/-- Does this native call release the kernel-info handle? -/
def NCall.isReleaseKernelInfo : NCall → Bool
  | .releaseKernelInfo _ => true
  | _ => false

/-- A trace contains no release of any kernel-info handle. -/
def noRelease (t : List NCall) : Bool :=
  t.all fun c => !c.isReleaseKernelInfo

/-- Model of the native engine behind one `OrtKernelInfo` handle.  Every
fallible entry point is an `Except` (a non-OK status is converted to a typed
failure at the boundary, per the ABI contract):
* `attrs` maps an attribute name to the attribute stored under it, if any;
  the typed native getters succeed exactly when the attribute exists with
  the requested native type tag (spec 4.1 failure conditions);
* `tensorElem` gives the dynamic element type of a tensor value, used to
  decide whether a downcast to a requested element type succeeds;
* the `inputNameRaw`/`outputNameRaw`/`nodeNameRaw` fields are the byte
  buffers the engine fills on the second call of the size-then-fill
  protocol (the reported size is the buffer length);
* `constantInput` returns the `(is_constant, value_ptr)` pair written by
  `KernelInfoGetConstantInput_tensor`;
* `dcast` tells whether the generic downcast to the caller's requested
  value type succeeds on a given value pointer;
* `copy` is `CopyKernelInfo`. -/
structure KernelInfoEnv where
  attrs : List Nat → Option AttrValue
  tensorElem : Ptr → Nat
  numInputs : Except String Nat
  inputNameRaw : Nat → Except String (List Nat)
  inputTypeInfo : Nat → Except String Ptr
  valueTypeOf : Ptr → Nat
  numOutputs : Except String Nat
  outputNameRaw : Nat → Except String (List Nat)
  outputTypeInfo : Nat → Except String Ptr
  nodeNameRaw : Except String (List Nat)
  allocatorFor : Nat → Except String Ptr
  constantInput : Nat → Except String (Int × Ptr)
  dcast : Ptr → Bool
  copy : Ptr → Except String Ptr

/-- The supported `GetKernelAttribute` target types; `tensor e` is
`ValueRef` downcast to the tensor type with element type tag `e`. -/
inductive AttrTag where
  | float | int | str | floats | ints
  | tensor : Nat → AttrTag
deriving DecidableEq, Repr

/-- `KernelAttributes`: a non-null kernel-info handle tagged with whether
this instance owns it (releases it on drop). -/
structure KernelAttributes where
  ptr : Ptr
  should_release : Bool
deriving DecidableEq, Repr

/-- Byte-level UTF-8 validity, as checked by Rust's `CString::into_string`
(via `str::from_utf8`): the standard well-formedness table, rejecting
overlong encodings, surrogates and code points above U+10FFFF. -/
def utf8Valid : List Nat → Bool
  | [] => true
  | b :: r =>
    if b ≤ 0x7F then utf8Valid r
    else if b ≤ 0xC1 then false
    else if b ≤ 0xDF then
      match r with
      | c1 :: r2 => (decide (0x80 ≤ c1 ∧ c1 ≤ 0xBF)) && utf8Valid r2
      | [] => false
    else if b ≤ 0xEF then
      match r with
      | c1 :: c2 :: r2 =>
        (if b = 0xE0 then decide (0xA0 ≤ c1 ∧ c1 ≤ 0xBF)
         else if b = 0xED then decide (0x80 ≤ c1 ∧ c1 ≤ 0x9F)
         else decide (0x80 ≤ c1 ∧ c1 ≤ 0xBF))
          && (decide (0x80 ≤ c2 ∧ c2 ≤ 0xBF)) && utf8Valid r2
      | _ => false
    else if b ≤ 0xF4 then
      match r with
      | c1 :: c2 :: c3 :: r2 =>
        (if b = 0xF0 then decide (0x90 ≤ c1 ∧ c1 ≤ 0xBF)
         else if b = 0xF4 then decide (0x80 ≤ c1 ∧ c1 ≤ 0x8F)
         else decide (0x80 ≤ c1 ∧ c1 ≤ 0xBF))
          && (decide (0x80 ≤ c2 ∧ c2 ≤ 0xBF))
          && (decide (0x80 ≤ c3 ∧ c3 ≤ 0xBF)) && utf8Valid r2
      | _ => false
    else false

/-- `CString::from_vec_with_nul(v)?.into_string()?`: succeeds iff the buffer
has exactly one NUL byte, at the end, and the content before it is valid
UTF-8; the host string is modelled as that validated byte content.  Both
failures are typed errors (`FromVecWithNulError` / `IntoStringError`
converted through `Error::wrap` or the literal message in context). -/
def cstrDecode (v : List Nat) (msg : String) : Outcome (List Nat) :=
  if v.getLast? = some 0 ∧ 0 ∉ v.dropLast then
    if utf8Valid v.dropLast then .ok v.dropLast else .err msg
  else .err msg

/-- `<f32 as GetKernelAttribute>::get_from` and friends, unified over the
target type tag: one native call per scalar/array tag (the size-then-fill
pair for strings), keyed on the attribute table.  Faithful to
`src/operator/kernel.rs` lines 162-309. -/
def getFrom (tag : AttrTag) (env : KernelInfoEnv) (p : Ptr) (name : List Nat) :
    Outcome HostVal × List NCall :=
  match tag with
  | .float =>
    (match env.attrs name with
      | some (.afloat b) => .ok (.hfloat b)
      | _ => .err "KernelInfoGetAttribute_float"
    , [.getAttrFloat p name])
  | .int =>
    (match env.attrs name with
      | some (.aint v) => .ok (.hint v)
      | _ => .err "KernelInfoGetAttribute_int64"
    , [.getAttrInt p name])
  | .str =>
    match env.attrs name with
    | some (.astr raw) =>
      ((cstrDecode raw "IntoStringError").map .hstr
      , [.getAttrString p name none, .getAttrString p name (some raw.length)])
    | _ => (.err "KernelInfoGetAttribute_string", [.getAttrString p name none])
  | .floats =>
    (match env.attrs name with
      | some (.afloats vs) => .ok (.hfloats vs)
      | _ => .err "KernelInfoGetAttributeArray_float"
    , [.getAttrArrayFloat p name])
  | .ints =>
    (match env.attrs name with
      | some (.aints vs) => .ok (.hints vs)
      | _ => .err "KernelInfoGetAttributeArray_int64"
    , [.getAttrArrayInt p name])
  | .tensor elem =>
    match env.attrs name with
    | some (.atensor vp) =>
      (if vp = 0 then .err "expected non-null value_ptr"
       else if env.tensorElem vp = elem then .ok (.htensor vp true)
       else .err "downcast failed"
      , [.getAttrTensor p name])
    | _ => (.err "KernelInfoGetAttribute_tensor", [.getAttrTensor p name])

/-- Modelled from the spec: `util::with_cstr` (a utility module of this
repository, not under `src/`) converts a host byte string into the
NUL-terminated C string the C-style ABI requires before handing it to the
continuation; a byte string containing a NUL byte has no C-string
representation, so the conversion fails with a typed error before any
native call is made. -/
def with_cstr {α : Type} (bytes : List Nat)
    (f : List Nat → Outcome α × List NCall) : Outcome α × List NCall :=
  if 0 ∈ bytes then (.err "string contains a NUL byte", []) else f bytes

/-- `KernelAttributes::get`: run the decoder for `tag` under `with_cstr` and
downgrade any error to an absent value via `Result::ok`. -/
def KernelAttributes.get (tag : AttrTag) (a : KernelAttributes)
    (env : KernelInfoEnv) (name : List Nat) :
    Outcome (Option HostVal) × List NCall :=
  let r := with_cstr name (fun n => getFrom tag env a.ptr n)
  (match r.1 with
   | .ok v => .ok (some v)
   | .err _ => .ok none
   | .fatal m => .fatal m
  , r.2)

/-- Does native attribute `a` have the native type requested by `tag`?
For the tensor tag the requested type includes the element type, checked by
the downcast. -/
def tagMatches (env : KernelInfoEnv) : AttrTag → AttrValue → Prop
  | .float, .afloat _ => True
  | .int, .aint _ => True
  | .str, .astr _ => True
  | .floats, .afloats _ => True
  | .ints, .aints _ => True
  | .tensor e, .atensor vp => env.tensorElem vp = e
  | _, _ => False

instance (env : KernelInfoEnv) (tag : AttrTag) (a : AttrValue) :
    Decidable (tagMatches env tag a) := by
  unfold tagMatches
  cases tag <;> cases a <;> simp <;> infer_instance

/-- An input/output descriptor produced by schema enumeration: name (host
string, as validated bytes) plus declared value type (the opaque result of
`ValueType::from_type_info`, modelled by `valueTypeOf`). -/
structure IODesc where
  name : List Nat
  vtype : Nat
deriving DecidableEq, Repr

/-- One iteration of the `inputs()` loop: size-then-fill name query,
`CString::from_vec_with_nul(..)?.into_string()?`, then the type-info query
with its non-null check (a null output pointer is a typed failure at the
boundary, per the error taxonomy of the spec). -/
def inputStep (env : KernelInfoEnv) (p : Ptr) (idx : Nat) :
    Outcome IODesc × List NCall :=
  match env.inputNameRaw idx with
  | .error e => (.err e, [.getInputName p idx])
  | .ok raw =>
    match cstrDecode raw "FromVecWithNulError" with
    | .err e => (.err e, [.getInputName p idx, .getInputName p idx])
    | .fatal m => (.fatal m, [.getInputName p idx, .getInputName p idx])
    | .ok s =>
      match env.inputTypeInfo idx with
      | .error e =>
        (.err e, [.getInputName p idx, .getInputName p idx, .getInputTypeInfo p idx])
      | .ok ti =>
        (if ti = 0 then .err "expected non-null type_info"
         else .ok ⟨s, env.valueTypeOf ti⟩
        , [.getInputName p idx, .getInputName p idx, .getInputTypeInfo p idx])

/-- The `inputs()` loop over indices `idx, idx+1, ...` for `fuel` more
iterations, all-or-nothing: the first failing iteration aborts the whole
enumeration. -/
def inputsFrom (env : KernelInfoEnv) (p : Ptr) :
    Nat → Nat → Outcome (List IODesc) × List NCall
  | 0, _ => (.ok [], [])
  | fuel + 1, idx =>
    match inputStep env p idx with
    | (.ok d, t) =>
      let r := inputsFrom env p fuel (idx + 1)
      (r.1.map (d :: ·), t ++ r.2)
    | (.err e, t) => (.err e, t)
    | (.fatal m, t) => (.fatal m, t)

/-- `KernelAttributes::inputs`. -/
def KernelAttributes.inputs (a : KernelAttributes) (env : KernelInfoEnv) :
    Outcome (List IODesc) × List NCall :=
  match env.numInputs with
  | .error e => (.err e, [.getInputCount a.ptr])
  | .ok n =>
    let r := inputsFrom env a.ptr n 0
    (r.1, .getInputCount a.ptr :: r.2)

/-- One iteration of the `outputs()` loop; same shape as `inputStep`. -/
def outputStep (env : KernelInfoEnv) (p : Ptr) (idx : Nat) :
    Outcome IODesc × List NCall :=
  match env.outputNameRaw idx with
  | .error e => (.err e, [.getOutputName p idx])
  | .ok raw =>
    match cstrDecode raw "FromVecWithNulError" with
    | .err e => (.err e, [.getOutputName p idx, .getOutputName p idx])
    | .fatal m => (.fatal m, [.getOutputName p idx, .getOutputName p idx])
    | .ok s =>
      match env.outputTypeInfo idx with
      | .error e =>
        (.err e, [.getOutputName p idx, .getOutputName p idx, .getOutputTypeInfo p idx])
      | .ok ti =>
        (if ti = 0 then .err "expected non-null type_info"
         else .ok ⟨s, env.valueTypeOf ti⟩
        , [.getOutputName p idx, .getOutputName p idx, .getOutputTypeInfo p idx])

/-- The `outputs()` loop. -/
def outputsFrom (env : KernelInfoEnv) (p : Ptr) :
    Nat → Nat → Outcome (List IODesc) × List NCall
  | 0, _ => (.ok [], [])
  | fuel + 1, idx =>
    match outputStep env p idx with
    | (.ok d, t) =>
      let r := outputsFrom env p fuel (idx + 1)
      (r.1.map (d :: ·), t ++ r.2)
    | (.err e, t) => (.err e, t)
    | (.fatal m, t) => (.fatal m, t)

/-- `KernelAttributes::outputs`. -/
def KernelAttributes.outputs (a : KernelAttributes) (env : KernelInfoEnv) :
    Outcome (List IODesc) × List NCall :=
  match env.numOutputs with
  | .error e => (.err e, [.getOutputCount a.ptr])
  | .ok n =>
    let r := outputsFrom env a.ptr n 0
    (r.1, .getOutputCount a.ptr :: r.2)

/-- A wrapped native value handle (`ValueRef` around a `DynValue`): the
pointer plus whether this wrapper owns it.  `Value::from_ptr_nodrop`
produces `owned = false`, `Value::from_ptr` produces `owned = true`. -/
structure ValueModel where
  ptr : Ptr
  owned : Bool
deriving DecidableEq, Repr

/-- Drop behaviour of a wrapped value: releases the native value handle
exactly when the wrapper owns it (the `from_ptr_nodrop` constructor yields a
borrow whose drop performs no release — the documented contract of the value
module, consumed here as an external collaborator). -/
def ValueModel.dropCalls (v : ValueModel) : List NCall :=
  if v.owned then [.releaseValue v.ptr] else []

/-- `KernelAttributes::constant_input`: query
`KernelInfoGetConstantInput_tensor`; reject non-constant or null results
with a typed error; wrap the pointer as a non-owning borrow and downcast. -/
def KernelAttributes.constant_input (a : KernelAttributes)
    (env : KernelInfoEnv) (idx : Nat) : Outcome ValueModel × List NCall :=
  (match env.constantInput idx with
   | .error e => .err e
   | .ok (is_constant, value_ptr) =>
     if is_constant = 0 ∨ value_ptr = 0 then
       .err "input index out of bounds or input is not constant"
     else if env.dcast value_ptr then .ok ⟨value_ptr, false⟩
     else .err "downcast failed"
  , [.getConstantInput a.ptr idx])

/-- `KernelAttributes::node_name`: size-then-fill, then C-string decoding. -/
def KernelAttributes.node_name (a : KernelAttributes) (env : KernelInfoEnv) :
    Outcome (List Nat) × List NCall :=
  match env.nodeNameRaw with
  | .error e => (.err e, [.getNodeName a.ptr])
  | .ok raw => (cstrDecode raw "FromVecWithNulError", [.getNodeName a.ptr, .getNodeName a.ptr])

/-- `KernelAttributes::allocator`: `KernelInfoGetAllocator` for the given
memory type, wrapped with `Allocator::from_raw_unchecked` (no null check in
the source). -/
def KernelAttributes.allocator (a : KernelAttributes) (env : KernelInfoEnv)
    (mem_type : Nat) : Outcome Ptr × List NCall :=
  (match env.allocatorFor mem_type with
   | .error e => .err e
   | .ok p => .ok p
  , [.getAllocator a.ptr mem_type])

/-- `impl Clone for KernelAttributes`: `CopyKernelInfo`, with
`.expect("failed to clone KernelAttributes")` on both the native status and
the null-pointer check, so any copy failure is a panic; the copy is marked
`should_release = true`. -/
def KernelAttributes.clone (a : KernelAttributes) (env : KernelInfoEnv) :
    Outcome KernelAttributes × List NCall :=
  (match env.copy a.ptr with
   | .error _ => .fatal "failed to clone KernelAttributes"
   | .ok out =>
     if out = 0 then .fatal "failed to clone KernelAttributes"
     else .ok ⟨out, true⟩
  , [.copyKernelInfo a.ptr])

/-- `impl Drop for KernelAttributes`: the native calls issued on drop. -/
def KernelAttributes.dropCalls (a : KernelAttributes) : List NCall :=
  if a.should_release then [.releaseKernelInfo a.ptr] else []

/-- Model of the raw `OrtOpAttr` read for a fixed-width scalar:
`ReadOpAttr` either fails with a status or writes a payload and reports the
number of bytes it filled. -/
structure ReadOpEnv where
  readFloat : Except String (Nat × Nat)
  readInt : Except String (Int × Nat)

/-- `<f32 as GetKernelAttribute>::from_read_op`: read into a 4-byte buffer,
then `assert_eq!(len, size_of::<f32>())` — a length mismatch is a fatal
assertion, not a recoverable error. -/
def f32_from_read_op (env : ReadOpEnv) : Outcome Nat :=
  match env.readFloat with
  | .error e => .err e
  | .ok (v, len) =>
    if len = 4 then .ok v
    else .fatal "assertion failed: len == size_of::<f32>()"

/-- `<i64 as GetKernelAttribute>::from_read_op`: read into an 8-byte buffer,
then `assert_eq!(len, size_of::<i64>())`. -/
def i64_from_read_op (env : ReadOpEnv) : Outcome Int :=
  match env.readInt with
  | .error e => .err e
  | .ok (v, len) =>
    if len = 8 then .ok v
    else .fatal "assertion failed: len == size_of::<i64>()"

/-- Model of the native engine behind one `OrtKernelContext` handle:
`getInput`/`getOutput` return the value pointer the engine writes (null for
a slot not connected in the graph), `resource` the opaque resource pointer
for an id/version pair (the engine signals an unsupported resource by
succeeding with a null pointer, per the spec's description of
execution-provider-dependent resource availability). -/
structure KernelContextEnv where
  getInput : Nat → Except String Ptr
  getOutput : Nat → List Int → Except String Ptr
  resource : Int → Int → Except String Ptr

/-- `KernelContext::input`: `KernelContext_GetInput`, mapping a null value
pointer to `Ok(None)` and a non-null one to a borrowed (`from_ptr_nodrop`)
view. -/
def KernelContext.input (env : KernelContextEnv) (idx : Nat) :
    Outcome (Option ValueModel) :=
  match env.getInput idx with
  | .error e => .err e
  | .ok p => if p = 0 then .ok none else .ok (some ⟨p, false⟩)

/-- `KernelContext::output`: `KernelContext_GetOutput` with the caller's
shape; same null-pointer-to-`None` mapping, borrowed view. -/
def KernelContext.output (env : KernelContextEnv) (idx : Nat)
    (shape : List Int) : Outcome (Option ValueModel) :=
  match env.getOutput idx shape with
  | .error e => .err e
  | .ok p => if p = 0 then .ok none else .ok (some ⟨p, false⟩)

/-- `KernelContext::get_resource`: `KernelContext_GetResource`, with
`NonNull::new` turning the written pointer into an `Option`. -/
def KernelContext.get_resource (env : KernelContextEnv) (id ver : Int) :
    Outcome (Option Ptr) :=
  match env.resource id ver with
  | .error e => .err e
  | .ok p => if p = 0 then .ok none else .ok (some p)

/-- `parallel_for_cb`: the extern trampoline reconstructs the type-erased
closure from the user-data pointer (by reference, never taking ownership)
and invokes it on the batch index the engine supplies. -/
def parallel_for_cb {α : Type} (executor : Nat → α) (iterator : Nat) : α :=
  executor iterator

/-- The engine-side contract of `KernelContext_ParallelFor`, from the spec
(the engine is an external collaborator): the engine partitions
`[0, total)` into at most `max_batches` contiguous batches.  A schedule is
the batch list in the (arbitrary) order the worker threads happen to run
them; validity says the batches, in declaration order, are exactly
`[0, total)` and there are at most `max_batches` of them (contiguity is
implied by the flattening being `range total`). -/
def IsValidBatching (total max_batches : Nat) (bs : List (List Nat)) : Prop :=
  bs.length ≤ max_batches ∧ bs.flatten = List.range total

/-- `KernelContext_ParallelFor` as observed through the trampoline: the
engine runs the callback once per index of each scheduled batch; the list
of results is complete when the native call returns (synchronous fan-out /
fan-in). -/
def KernelContext_ParallelFor {α : Type} (cb : Nat → α)
    (sched : List (List Nat)) : List α :=
  sched.flatten.map cb

/-- `KernelContext::par_for`: box the work function and hand it to
`KernelContext_ParallelFor` together with the `parallel_for_cb` trampoline;
the returned list is the sequence of completed `work` invocations at the
moment `par_for` returns. -/
def KernelContext.par_for {α : Type} (_total _max_num_batches : Nat)
    (f : Nat → α) (sched : List (List Nat)) : List α :=
  KernelContext_ParallelFor (parallel_for_cb f) sched

/-- A small concrete kernel-info environment used to evaluate the theorems:
an integer attribute under name `[97]`, string attributes under `[1]`
(well-formed), `[2]` (non-UTF-8 content) and `[3]` (not NUL-terminated), a
constant input at index 0, and a copy primitive that returns a fresh
handle. -/
def envEx : KernelInfoEnv where
  attrs := fun name =>
    if name = [97] then some (.aint 7)
    else if name = [1] then some (.astr [104, 105, 0])
    else if name = [2] then some (.astr [255, 0])
    else if name = [3] then some (.astr [104])
    else none
  tensorElem := fun _ => 0
  numInputs := .ok 0
  inputNameRaw := fun _ => .error "index out of bounds"
  inputTypeInfo := fun _ => .error "index out of bounds"
  valueTypeOf := fun _ => 0
  numOutputs := .ok 0
  outputNameRaw := fun _ => .error "index out of bounds"
  outputTypeInfo := fun _ => .error "index out of bounds"
  nodeNameRaw := .ok [110, 0]
  allocatorFor := fun _ => .ok 5
  constantInput := fun i => if i = 0 then .ok (1, 9) else .error "out of bounds"
  dcast := fun _ => true
  copy := fun p => .ok (p + 1)

/-- A variant of `envEx` whose copy primitive fails and whose constant-input
query reports a non-constant input. -/
def envExFail : KernelInfoEnv :=
  { envEx with
    copy := fun _ => .error "native failure"
    constantInput := fun _ => .ok (0, 9) }

/-- A small concrete kernel-context environment: input/output slot 0
connected, slot 1 absent (null), and every resource unsupported. -/
def ctxEnvEx : KernelContextEnv where
  getInput := fun i => if i = 0 then .ok 3 else .ok 0
  getOutput := fun i _ => if i = 0 then .ok 4 else .ok 0
  resource := fun _ _ => .ok 0

/-- A raw-attribute read environment honouring the length contract. -/
def readEnvOk : ReadOpEnv where
  readFloat := .ok (7, 4)
  readInt := .ok (3, 8)

/-- A raw-attribute read environment violating the length contract. -/
def readEnvBad : ReadOpEnv where
  readFloat := .ok (7, 2)
  readInt := .ok (3, 2)

/-- If a typed decoder succeeds, the attribute exists under that name with
the requested native type. -/
theorem getFrom_ok_implies_match (tag : AttrTag) (env : KernelInfoEnv)
    (p : Ptr) (name : List Nat) (v : HostVal)
    (h : (getFrom tag env p name).1 = .ok v) :
    ∃ attr, env.attrs name = some attr ∧ tagMatches env tag attr := by
  cases hA : env.attrs name with
  | none => cases tag <;> simp [getFrom, hA] at h
  | some attr =>
    refine ⟨attr, rfl, ?_⟩
    cases tag <;> cases attr <;>
      simp [getFrom, hA, tagMatches, Outcome.map] at h ⊢ <;>
      try (split_ifs at h <;> simp_all)

/-- If the attribute is missing or has a type other than the requested one,
every typed decoder fails with a typed error. -/
theorem getFrom_err_of_no_match (tag : AttrTag) (env : KernelInfoEnv)
    (p : Ptr) (name : List Nat)
    (hmm : ∀ attr, env.attrs name = some attr → ¬ tagMatches env tag attr) :
    ∃ e, (getFrom tag env p name).1 = Outcome.err e := by
  cases hA : env.attrs name with
  | none => cases tag <;> simp [getFrom, hA]
  | some attr =>
    have hnm := hmm attr hA
    cases tag <;> cases attr <;>
      simp [getFrom, hA, tagMatches] at hnm ⊢ <;>
      try (split_ifs <;> simp_all)

/-- C1: for every attribute name and every supported target type,
`KernelAttributes::get` returns `Ok(None)` — an absent value, never a
propagated error — when the attribute does not exist or exists with a
different type, and returns `Ok(Some v)` only when the attribute exists
with the requested type and its decoder yields `v`. -/
theorem get_absent_on_missing_or_mismatch
    (tag : AttrTag) (a : KernelAttributes) (env : KernelInfoEnv)
    (name : List Nat) :
    ((∀ attr, env.attrs name = some attr → ¬ tagMatches env tag attr) →
       (KernelAttributes.get tag a env name).1 = .ok none)
    ∧ (∀ v, (KernelAttributes.get tag a env name).1 = .ok (some v) →
       ∃ attr, env.attrs name = some attr ∧ tagMatches env tag attr ∧
         (getFrom tag env a.ptr name).1 = .ok v) := by
  constructor
  · intro hmm
    by_cases h0 : 0 ∈ name
    · simp [KernelAttributes.get, with_cstr, h0]
    · obtain ⟨e, he⟩ := getFrom_err_of_no_match tag env a.ptr name hmm
      simp [KernelAttributes.get, with_cstr, h0, he]
  · intro v hv
    by_cases h0 : 0 ∈ name
    · simp [KernelAttributes.get, with_cstr, h0] at hv
    · simp [KernelAttributes.get, with_cstr, h0] at hv
      cases hg : (getFrom tag env a.ptr name).1 with
      | ok w =>
        rw [hg] at hv
        simp at hv
        subst hv
        obtain ⟨attr, hA, hm⟩ := getFrom_ok_implies_match tag env a.ptr name w hg
        exact ⟨attr, hA, hm, rfl⟩
      | err e => rw [hg] at hv; simp at hv
      | fatal m => rw [hg] at hv; simp at hv

/-- Closed check of C1 on a concrete environment: looking up a missing
name, and looking up an existing integer attribute at float type, both
yield `Ok(None)`. -/
theorem get_absent_on_missing_or_mismatch_witness :
    (KernelAttributes.get .float ⟨1, true⟩ envEx [98]).1 = .ok none
    ∧ (KernelAttributes.get .float ⟨1, true⟩ envEx [97]).1 = .ok none :=
  ⟨(get_absent_on_missing_or_mismatch .float ⟨1, true⟩ envEx [98]).1
    (by intro attr h; simp [envEx] at h),
   (get_absent_on_missing_or_mismatch .float ⟨1, true⟩ envEx [97]).1
    (by intro attr h; simp [envEx] at h; simp [← h, tagMatches])⟩

/-- C10: an attribute name containing an interior NUL byte makes
`KernelAttributes::get` return `Ok(None)` with no native call issued at
all: the C-string conversion failure is silently downgraded to an absent
value. -/
theorem get_nul_name_absent_without_native_call
    (tag : AttrTag) (a : KernelAttributes) (env : KernelInfoEnv)
    (name : List Nat) (h : 0 ∈ name) :
    KernelAttributes.get tag a env name = (.ok none, []) := by
  simp [KernelAttributes.get, with_cstr, h]

/-- Closed check of C10 at the name `[97, 0, 98]`, which exists in no
attribute table representation and whose lookup performs no native call. -/
theorem get_nul_name_absent_without_native_call_witness :
    KernelAttributes.get .int ⟨1, true⟩ envEx [97, 0, 98] = (.ok none, []) :=
  get_nul_name_absent_without_native_call .int ⟨1, true⟩ envEx [97, 0, 98]
    (by decide)

/-- C4: `KernelContext::get_resource` maps the engine's
success-with-null-pointer answer (the unsupported-resource signal) to
`Ok(None)` rather than an error; a non-null pointer becomes `Ok(Some p)`
and only a failing native status becomes an error. -/
theorem get_resource_absent_on_unsupported
    (env : KernelContextEnv) (id ver : Int) :
    (env.resource id ver = .ok 0 →
       KernelContext.get_resource env id ver = .ok none)
    ∧ (∀ p, env.resource id ver = .ok p → p ≠ 0 →
       KernelContext.get_resource env id ver = .ok (some p))
    ∧ (∀ e, env.resource id ver = .error e →
       KernelContext.get_resource env id ver = .err e) := by
  refine ⟨fun h => ?_, fun p h hp => ?_, fun e h => ?_⟩ <;>
    simp [KernelContext.get_resource, h] <;> simp [hp]

/-- Closed check of C4: every resource of the concrete context environment
is unsupported and `get_resource` answers `Ok(None)`. -/
theorem get_resource_absent_on_unsupported_witness :
    KernelContext.get_resource ctxEnvEx 1 2 = .ok none :=
  (get_resource_absent_on_unsupported ctxEnvEx 1 2).1 rfl

/-- C8: `KernelContext::input` and `KernelContext::output` return
`Ok(None)` for a disconnected slot (native success with a null value
pointer), an error exactly when the native call fails, and for a connected
slot a borrowed view whose drop issues no release. -/
theorem input_output_absent_distinct_from_error
    (env : KernelContextEnv) (idx : Nat) (shape : List Int) :
    (env.getInput idx = .ok 0 → KernelContext.input env idx = .ok none)
    ∧ (∀ e, env.getInput idx = .error e →
        KernelContext.input env idx = .err e)
    ∧ (∀ p, env.getInput idx = .ok p → p ≠ 0 →
        KernelContext.input env idx = .ok (some ⟨p, false⟩)
        ∧ ValueModel.dropCalls ⟨p, false⟩ = [])
    ∧ (env.getOutput idx shape = .ok 0 →
        KernelContext.output env idx shape = .ok none)
    ∧ (∀ e, env.getOutput idx shape = .error e →
        KernelContext.output env idx shape = .err e)
    ∧ (∀ p, env.getOutput idx shape = .ok p → p ≠ 0 →
        KernelContext.output env idx shape = .ok (some ⟨p, false⟩)
        ∧ ValueModel.dropCalls ⟨p, false⟩ = []) := by
  refine ⟨fun h => ?_, fun e h => ?_, fun p h hp => ?_,
          fun h => ?_, fun e h => ?_, fun p h hp => ?_⟩ <;>
    simp [KernelContext.input, KernelContext.output, ValueModel.dropCalls, h] <;>
    simp [hp]

/-- Closed check of C8: slot 0 of the concrete context is connected (a
borrowed view), slot 1 is absent. -/
theorem input_output_absent_distinct_from_error_witness :
    KernelContext.input ctxEnvEx 1 = .ok none
    ∧ (KernelContext.input ctxEnvEx 0 = .ok (some ⟨3, false⟩)
       ∧ ValueModel.dropCalls ⟨3, false⟩ = []) :=
  ⟨(input_output_absent_distinct_from_error ctxEnvEx 1 []).1 rfl,
   (input_output_absent_distinct_from_error ctxEnvEx 0 []).2.2.1 3 rfl
     (by decide)⟩

/-- C7: the raw-buffer decoders for 32-bit floats and 64-bit integers treat
a filled length different from the element width (4 resp. 8 bytes) as a
fatal assertion, and under the native length contract they return the
decoded value as `Ok`. -/
theorem from_read_op_length_assertion (env : ReadOpEnv) :
    (∀ v len, env.readFloat = .ok (v, len) → len ≠ 4 →
       f32_from_read_op env = .fatal "assertion failed: len == size_of::<f32>()")
    ∧ (∀ v len, env.readFloat = .ok (v, len) → len = 4 →
       f32_from_read_op env = .ok v)
    ∧ (∀ v len, env.readInt = .ok (v, len) → len ≠ 8 →
       i64_from_read_op env = .fatal "assertion failed: len == size_of::<i64>()")
    ∧ (∀ v len, env.readInt = .ok (v, len) → len = 8 →
       i64_from_read_op env = .ok v) := by
  refine ⟨fun v len h hl => ?_, fun v len h hl => ?_,
          fun v len h hl => ?_, fun v len h hl => ?_⟩ <;>
    simp [f32_from_read_op, i64_from_read_op, h, hl]

/-- Closed check of C7: a 2-byte fill aborts, a 4-byte fill decodes. -/
theorem from_read_op_length_assertion_witness :
    f32_from_read_op readEnvBad = .fatal "assertion failed: len == size_of::<f32>()"
    ∧ f32_from_read_op readEnvOk = .ok 7 :=
  ⟨(from_read_op_length_assertion readEnvBad).1 7 2 rfl (by decide),
   (from_read_op_length_assertion readEnvOk).2.1 7 4 rfl rfl⟩

/-- C6: `KernelAttributes::constant_input` returns `Ok` with a borrowed,
non-owning reference (whose drop issues no release) exactly when the
engine reports the input as constant with a non-null value and the
downcast succeeds; every other case — native failure, non-constant or
out-of-bounds index (`is_constant = 0`), null value, failed downcast — is
an error. -/
theorem constant_input_borrowed_iff_constant
    (a : KernelAttributes) (env : KernelInfoEnv) (idx : Nat) :
    (∀ e, env.constantInput idx = .error e →
       (KernelAttributes.constant_input a env idx).1 = .err e)
    ∧ (∀ c p, env.constantInput idx = .ok (c, p) → c = 0 ∨ p = 0 →
       (KernelAttributes.constant_input a env idx).1 =
         .err "input index out of bounds or input is not constant")
    ∧ (∀ c p, env.constantInput idx = .ok (c, p) → c ≠ 0 → p ≠ 0 →
        env.dcast p = false →
       (KernelAttributes.constant_input a env idx).1 = .err "downcast failed")
    ∧ (∀ c p, env.constantInput idx = .ok (c, p) → c ≠ 0 → p ≠ 0 →
        env.dcast p = true →
       (KernelAttributes.constant_input a env idx).1 = .ok ⟨p, false⟩
       ∧ ValueModel.dropCalls ⟨p, false⟩ = []) := by
  refine ⟨fun e h => ?_, fun c p h hz => ?_, fun c p h hc hp hd => ?_,
          fun c p h hc hp hd => ?_⟩
  · simp [KernelAttributes.constant_input, h]
  · rcases hz with hz | hz <;>
      simp [KernelAttributes.constant_input, h, hz]
  · simp [KernelAttributes.constant_input, h, hc, hp, hd]
  · simp [KernelAttributes.constant_input, ValueModel.dropCalls, h, hc, hp, hd]

/-- Closed check of C6: in the concrete environment, index 0 is a constant
input with a non-null value and a succeeding downcast (a borrow), index 7
is out of bounds (an error), and `envExFail` reports index 0 as
non-constant (an error). -/
theorem constant_input_borrowed_iff_constant_witness :
    ((KernelAttributes.constant_input ⟨1, true⟩ envEx 0).1 = .ok ⟨9, false⟩
      ∧ ValueModel.dropCalls ⟨9, false⟩ = [])
    ∧ (KernelAttributes.constant_input ⟨1, true⟩ envEx 7).1 = .err "out of bounds"
    ∧ (KernelAttributes.constant_input ⟨1, true⟩ envExFail 0).1 =
        .err "input index out of bounds or input is not constant" :=
  ⟨(constant_input_borrowed_iff_constant ⟨1, true⟩ envEx 0).2.2.2 1 9 rfl
      (by decide) (by decide) rfl,
   (constant_input_borrowed_iff_constant ⟨1, true⟩ envEx 7).1 "out of bounds" rfl,
   (constant_input_borrowed_iff_constant ⟨1, true⟩ envExFail 0).2.1 0 9 rfl
      (Or.inl rfl)⟩

/-- C5: `Clone for KernelAttributes` deep-copies the handle through the
native copy primitive and always marks the result owned, whatever the
original's ownership, so the clone's own drop releases the fresh handle;
a failing copy (error status or null result) is a panic with the message
"failed to clone KernelAttributes", not a recoverable error. -/
theorem clone_owned_and_copy_failure_fatal
    (a : KernelAttributes) (env : KernelInfoEnv) :
    (∀ p, env.copy a.ptr = .ok p → p ≠ 0 →
       (KernelAttributes.clone a env).1 = .ok ⟨p, true⟩
       ∧ (KernelAttributes.clone a env).2 = [.copyKernelInfo a.ptr]
       ∧ KernelAttributes.dropCalls ⟨p, true⟩ = [.releaseKernelInfo p])
    ∧ (∀ e, env.copy a.ptr = .error e →
       (KernelAttributes.clone a env).1 = .fatal "failed to clone KernelAttributes")
    ∧ (env.copy a.ptr = .ok 0 →
       (KernelAttributes.clone a env).1 = .fatal "failed to clone KernelAttributes") := by
  refine ⟨fun p h hp => ?_, fun e h => ?_, fun h => ?_⟩ <;>
    simp [KernelAttributes.clone, KernelAttributes.dropCalls, h] <;>
    simp [hp]

/-- Closed check of C5: cloning a borrowed instance under the concrete
environment yields an owned instance on the fresh handle, and cloning
under the failing environment aborts. -/
theorem clone_owned_and_copy_failure_fatal_witness :
    ((KernelAttributes.clone ⟨1, false⟩ envEx).1 = .ok ⟨2, true⟩
      ∧ (KernelAttributes.clone ⟨1, false⟩ envEx).2 = [.copyKernelInfo 1]
      ∧ KernelAttributes.dropCalls ⟨2, true⟩ = [.releaseKernelInfo 2])
    ∧ (KernelAttributes.clone ⟨1, false⟩ envExFail).1 =
        .fatal "failed to clone KernelAttributes" :=
  ⟨(clone_owned_and_copy_failure_fatal ⟨1, false⟩ envEx).1 2 rfl (by decide),
   (clone_owned_and_copy_failure_fatal ⟨1, false⟩ envExFail).2.1 "native failure" rfl⟩

/-- C9: decoding a string attribute by name issues exactly the two-call
size-then-fill pair (null buffer first, then a buffer of exactly the
reported size), never panics (for any environment and name), and returns a
typed decode error when the filled buffer is not NUL-terminated (no final
NUL, or an interior NUL) or its content is not valid UTF-8; a well-formed
buffer decodes to its content. -/
theorem string_get_from_two_call_typed_errors
    (env : KernelInfoEnv) (p : Ptr) (name raw : List Nat)
    (h : env.attrs name = some (.astr raw)) :
    (getFrom .str env p name).2 =
      [.getAttrString p name none, .getAttrString p name (some raw.length)]
    ∧ (∀ env2 p2 n2 m, (getFrom .str env2 p2 n2).1 ≠ .fatal m)
    ∧ (raw.getLast? ≠ some 0 ∨ 0 ∈ raw.dropLast →
        ∃ e, (getFrom .str env p name).1 = .err e)
    ∧ (utf8Valid raw.dropLast = false →
        ∃ e, (getFrom .str env p name).1 = .err e)
    ∧ (raw.getLast? = some 0 → 0 ∉ raw.dropLast → utf8Valid raw.dropLast = true →
        (getFrom .str env p name).1 = .ok (.hstr raw.dropLast)) := by
  refine ⟨by simp [getFrom, h], fun env2 p2 n2 m => ?_,
          fun hbad => ?_, fun hbad => ?_, fun h1 h2 h3 => ?_⟩
  · cases hA : env2.attrs n2 with
    | none => simp [getFrom, hA]
    | some attr =>
      cases attr <;> simp [getFrom, hA, cstrDecode, Outcome.map] <;>
        split_ifs <;> simp
  · rcases hbad with hb | hb <;>
      simp [getFrom, h, cstrDecode, Outcome.map, hb] <;>
      split_ifs <;> simp_all
  · simp [getFrom, h, cstrDecode, Outcome.map, hbad] <;> split_ifs <;> simp_all
  · simp [getFrom, h, cstrDecode, Outcome.map, h1, h2, h3]

/-- Closed check of C9 on the concrete environment: the well-formed
attribute `[1]` decodes to "hi" with the two-call trace, the non-UTF-8
attribute `[2]` and the non-NUL-terminated attribute `[3]` produce typed
errors. -/
theorem string_get_from_two_call_typed_errors_witness :
    ((getFrom .str envEx 1 [1]).2 =
      [.getAttrString 1 [1] none, .getAttrString 1 [1] (some 3)]
     ∧ (getFrom .str envEx 1 [1]).1 = .ok (.hstr [104, 105]))
    ∧ (∃ e, (getFrom .str envEx 1 [2]).1 = .err e)
    ∧ (∃ e, (getFrom .str envEx 1 [3]).1 = .err e) :=
  ⟨⟨(string_get_from_two_call_typed_errors envEx 1 [1] [104, 105, 0]
       (by simp [envEx])).1,
    (string_get_from_two_call_typed_errors envEx 1 [1] [104, 105, 0]
       (by simp [envEx])).2.2.2.2 rfl (by decide) (by decide)⟩,
   (string_get_from_two_call_typed_errors envEx 1 [2] [255, 0]
       (by simp [envEx])).2.2.2.1 (by decide),
   (string_get_from_two_call_typed_errors envEx 1 [3] [104]
       (by simp [envEx])).2.2.1 (Or.inl (by decide))⟩

/-- `noRelease` distributes over trace concatenation. -/
theorem noRelease_append (s t : List NCall) :
    noRelease (s ++ t) = (noRelease s && noRelease t) := by
  simp [noRelease, List.all_append]

/-- One schema-enumeration step for inputs issues no release. -/
theorem noRelease_inputStep (env : KernelInfoEnv) (p : Ptr) (idx : Nat) :
    noRelease (inputStep env p idx).2 = true := by
  unfold inputStep
  cases h : env.inputNameRaw idx with
  | error e => simp [noRelease, NCall.isReleaseKernelInfo]
  | ok raw =>
    cases h2 : cstrDecode raw "FromVecWithNulError" with
    | ok s =>
      cases h3 : env.inputTypeInfo idx with
      | error e => simp [h2, h3, noRelease, NCall.isReleaseKernelInfo]
      | ok ti => simp [h2, h3, noRelease, NCall.isReleaseKernelInfo]
    | err e => simp [h2, noRelease, NCall.isReleaseKernelInfo]
    | fatal m => simp [h2, noRelease, NCall.isReleaseKernelInfo]

/-- The whole inputs-enumeration loop issues no release. -/
theorem noRelease_inputsFrom (env : KernelInfoEnv) (p : Ptr)
    (fuel idx : Nat) : noRelease (inputsFrom env p fuel idx).2 = true := by
  induction fuel generalizing idx with
  | zero => simp [inputsFrom, noRelease]
  | succ n ih =>
    have hstep := noRelease_inputStep env p idx
    unfold inputsFrom
    cases hs : inputStep env p idx with
    | mk r t =>
      rw [hs] at hstep
      cases r <;> simp [noRelease_append, hstep, ih]

/-- One schema-enumeration step for outputs issues no release. -/
theorem noRelease_outputStep (env : KernelInfoEnv) (p : Ptr) (idx : Nat) :
    noRelease (outputStep env p idx).2 = true := by
  unfold outputStep
  cases h : env.outputNameRaw idx with
  | error e => simp [noRelease, NCall.isReleaseKernelInfo]
  | ok raw =>
    cases h2 : cstrDecode raw "FromVecWithNulError" with
    | ok s =>
      cases h3 : env.outputTypeInfo idx with
      | error e => simp [h2, h3, noRelease, NCall.isReleaseKernelInfo]
      | ok ti => simp [h2, h3, noRelease, NCall.isReleaseKernelInfo]
    | err e => simp [h2, noRelease, NCall.isReleaseKernelInfo]
    | fatal m => simp [h2, noRelease, NCall.isReleaseKernelInfo]

/-- The whole outputs-enumeration loop issues no release. -/
theorem noRelease_outputsFrom (env : KernelInfoEnv) (p : Ptr)
    (fuel idx : Nat) : noRelease (outputsFrom env p fuel idx).2 = true := by
  induction fuel generalizing idx with
  | zero => simp [outputsFrom, noRelease]
  | succ n ih =>
    have hstep := noRelease_outputStep env p idx
    unfold outputsFrom
    cases hs : outputStep env p idx with
    | mk r t =>
      rw [hs] at hstep
      cases r <;> simp [noRelease_append, hstep, ih]

/-- No typed attribute decoder issues a release. -/
theorem noRelease_getFrom (tag : AttrTag) (env : KernelInfoEnv) (p : Ptr)
    (name : List Nat) : noRelease (getFrom tag env p name).2 = true := by
  cases tag <;>
    simp only [getFrom] <;>
    (try split) <;>
    simp [noRelease, NCall.isReleaseKernelInfo]

/-- C2: dropping a `KernelAttributes` issues exactly one release of its
kernel-info handle when the instance is owned (`should_release`) and no
native call at all when it is borrowed; and no other operation of the type
— attribute lookup, schema enumeration, constant-input retrieval,
node-name query, allocator retrieval, clone — ever issues a release of a
kernel-info handle. -/
theorem drop_releases_iff_owned_and_no_other_release
    (a : KernelAttributes) (env : KernelInfoEnv) (tag : AttrTag)
    (name : List Nat) (idx mem_type : Nat) :
    KernelAttributes.dropCalls a =
      (if a.should_release then [.releaseKernelInfo a.ptr] else [])
    ∧ ((KernelAttributes.dropCalls a).count (.releaseKernelInfo a.ptr) =
        if a.should_release then 1 else 0)
    ∧ noRelease (KernelAttributes.get tag a env name).2 = true
    ∧ noRelease (KernelAttributes.inputs a env).2 = true
    ∧ noRelease (KernelAttributes.outputs a env).2 = true
    ∧ noRelease (KernelAttributes.constant_input a env idx).2 = true
    ∧ noRelease (KernelAttributes.node_name a env).2 = true
    ∧ noRelease (KernelAttributes.allocator a env mem_type).2 = true
    ∧ noRelease (KernelAttributes.clone a env).2 = true := by
  refine ⟨rfl, ?_, ?_, ?_, ?_, ?_, ?_, ?_, ?_⟩
  · cases h : a.should_release <;> simp [KernelAttributes.dropCalls, h]
  · by_cases h0 : 0 ∈ name
    · simp [KernelAttributes.get, with_cstr, h0, noRelease]
    · simpa [KernelAttributes.get, with_cstr, h0] using
        noRelease_getFrom tag env a.ptr name
  · cases h : env.numInputs with
    | error e => simp [KernelAttributes.inputs, h, noRelease, NCall.isReleaseKernelInfo]
    | ok n =>
      simp [KernelAttributes.inputs, h, noRelease, NCall.isReleaseKernelInfo]
      have := noRelease_inputsFrom env a.ptr n 0
      simpa [noRelease] using this
  · cases h : env.numOutputs with
    | error e => simp [KernelAttributes.outputs, h, noRelease, NCall.isReleaseKernelInfo]
    | ok n =>
      simp [KernelAttributes.outputs, h, noRelease, NCall.isReleaseKernelInfo]
      have := noRelease_outputsFrom env a.ptr n 0
      simpa [noRelease] using this
  · simp [KernelAttributes.constant_input, noRelease, NCall.isReleaseKernelInfo]
  · cases h : env.nodeNameRaw with
    | error e => simp [KernelAttributes.node_name, h, noRelease, NCall.isReleaseKernelInfo]
    | ok raw => simp [KernelAttributes.node_name, h, noRelease, NCall.isReleaseKernelInfo]
  · simp [KernelAttributes.allocator, noRelease, NCall.isReleaseKernelInfo]
  · simp [KernelAttributes.clone, noRelease, NCall.isReleaseKernelInfo]

/-- C3: under the engine-side contract that `[0, total)` is split into at
most `max_batches` contiguous batches and the batches run in an arbitrary
order (any permutation `sched` of a valid batching), `par_for` causes the
work function to be invoked exactly once for every index in `[0, total)`
and for no other index, and the list it returns on completion of the
native call contains all invocation results (synchronous fan-out/fan-in:
the call returns only once every batch has run). -/
theorem par_for_each_index_exactly_once {α : Type} (total max_batches : Nat)
    (f : Nat → α) (bs sched : List (List Nat))
    (hb : IsValidBatching total max_batches bs) (hp : sched.Perm bs) :
    (∀ i, i < total → sched.flatten.count i = 1)
    ∧ (∀ i, total ≤ i → sched.flatten.count i = 0)
    ∧ KernelContext.par_for total max_batches f sched = sched.flatten.map f
    ∧ sched.flatten.length = total
    ∧ sched.length ≤ max_batches := by
  obtain ⟨hlen, hflat⟩ := hb
  have hpf : sched.flatten.Perm (List.range total) := by
    rw [← hflat]; exact hp.flatten
  refine ⟨fun i hi => ?_, fun i hi => ?_, rfl, ?_, ?_⟩
  · rw [hpf.count_eq]
    exact List.count_eq_one_of_mem (List.nodup_range total) (List.mem_range.mpr hi)
  · rw [hpf.count_eq]
    exact List.count_eq_zero_of_not_mem (by simp [List.mem_range]; omega)
  · rw [hpf.length_eq, List.length_range]
  · rw [hp.length_eq]; exact hlen

/-- Closed check of C3: total 3, at most 2 batches, batching
`[[0,1],[2]]` executed in the reversed order `[[2],[0,1]]`: index 1 is
worked exactly once and the returned results cover every index. -/
theorem par_for_each_index_exactly_once_witness :
    ([[2], [0, 1]] : List (List Nat)).flatten.count 1 = 1
    ∧ KernelContext.par_for 3 2 (fun i => i * 10) [[2], [0, 1]] = [20, 0, 10] :=
  ⟨(par_for_each_index_exactly_once 3 2 (fun i => i * 10) [[0, 1], [2]]
      [[2], [0, 1]] (by constructor <;> decide) (by decide)).1 1 (by decide),
   ((par_for_each_index_exactly_once 3 2 (fun i => i * 10) [[0, 1], [2]]
      [[2], [0, 1]] (by constructor <;> decide) (by decide)).2.2.1).trans (by decide)⟩

end OrtKernel
